import Mathlib

/-!
# Verification of the route53-update record reconciliation engine

Shallow embedding of the decision logic of `src/main.rs`, `src/utils.rs` and
`src/types.rs` (stefansundin/route53-update).  Rust strings are modelled as
Lean `String` (or `List Char` where character-level access matters), Rust
`Option`/`Result` as `Option`/`Except`, and panics as a distinguished
error/`none` outcome.  Network calls made by `main` are modelled by an
oracle `World` that supplies each call's response, and the calls actually
issued are collected in an event trace.
-/

set_option maxRecDepth 10000

/-- `aws_sdk_route53::types::RrType` (the DNS record types used by the
program; the SDK enum carries further variants that behave like the
non-A/AAAA/CNAME/TXT cases here). -/
inductive RrType where
  | A | Aaaa | Caa | Cname | Ds | Mx | Naptr | Ns | Ptr | Soa | Spf | Srv | Txt
deriving DecidableEq, Repr

/-- `types::HostedZoneType` from `src/types.rs`. -/
inductive HostedZoneType where
  | PreferPublic | Public | Private
deriving DecidableEq, Repr

/-- `types::IPAddressType` from `src/types.rs`. -/
inductive IPAddressType where
  | Public | Private
deriving DecidableEq, Repr

/-- `types::ValueFromSource` from `src/types.rs`. -/
inductive ValueFromSource where
  | Auto | Ec2Metadata | EcsMetadata
deriving DecidableEq, Repr

/-- The `config` payload of an SDK `HostedZone` (only the `private_zone`
flag is read by the program). -/
structure HostedZoneConfig where
  private_zone : Bool
deriving DecidableEq, Repr

/-- An SDK `HostedZone` as consumed by the program: id, dot-terminated
name, and optional config holding the privacy flag. -/
structure HostedZone where
  id : String
  name : String
  config : Option HostedZoneConfig
deriving DecidableEq, Repr

/-- An SDK `ResourceRecordSet` as consumed by the program: name, type,
optional TTL (absent on alias records) and the value list. -/
structure ResourceRecordSet where
  name : String
  rtype : RrType
  ttl : Option Int
  values : List String
deriving DecidableEq, Repr

/-- `types::EcsContainerNetworkMetadata` from `src/types.rs`. -/
structure EcsContainerNetworkMetadata where
  ipv4_addresses : Option (List String)
  ipv6_addresses : Option (List String)
deriving DecidableEq, Repr

/-- `types::EcsContainerMetadata` from `src/types.rs`. -/
structure EcsContainerMetadata where
  networks : List EcsContainerNetworkMetadata
deriving DecidableEq, Repr

/-- `types::EcsTaskMetadata` from `src/types.rs`. -/
structure EcsTaskMetadata where
  containers : List EcsContainerMetadata
deriving DecidableEq, Repr

/-! ## Rust `std::net::IpAddr` parsing (`core::net::parser`)

`detect_record_type` calls `text.parse::<IpAddr>()`.  The functions below
embed the parser from Rust's standard library (`core/src/net/parser.rs`):
a backtracking reader over the character sequence, where returning `none`
leaves the caller's input untouched (`read_atomically`). -/

/-- `std::net::IpAddr`: either a V4 address (four octets) or a V6 address
(eight 16-bit groups). -/
inductive IpAddr where
  | V4 : Nat → Nat → Nat → Nat → IpAddr
  | V6 : List Nat → IpAddr
deriving DecidableEq, Repr

/-- `IpAddr::is_ipv4`: true exactly on the V4 variant. -/
def IpAddr.is_ipv4 : IpAddr → Bool
  | .V4 _ _ _ _ => true
  | .V6 _ => false

/-- `IpAddr::is_ipv6`: true exactly on the V6 variant. -/
def IpAddr.is_ipv6 : IpAddr → Bool
  | .V4 _ _ _ _ => false
  | .V6 _ => true

/-- `char::to_digit(radix)`. -/
def digitValue (radix : Nat) (c : Char) : Option Nat :=
  let d :=
    if '0'.toNat ≤ c.toNat ∧ c.toNat ≤ '9'.toNat then some (c.toNat - '0'.toNat)
    else if 'a'.toNat ≤ c.toNat ∧ c.toNat ≤ 'z'.toNat then some (c.toNat - 'a'.toNat + 10)
    else if 'A'.toNat ≤ c.toNat ∧ c.toNat ≤ 'Z'.toNat then some (c.toNat - 'A'.toNat + 10)
    else none
  match d with
  | some v => if v < radix then some v else none
  | none => none

/-- The digit-reading loop of `Parser::read_number`: consumes digits,
accumulating the value with checked arithmetic (`maxVal` is the numeric
type's maximum: 255 for `u8` octets, 65535 for `u16` groups).  Overflow or
exceeding `maxDigits` aborts the whole read (`none`); a non-digit simply
ends the loop, leaving it unconsumed.  Returns (value, digit count,
remaining input). -/
def read_number_loop (radix maxVal maxDigits : Nat) :
    List Char → Nat → Nat → Option (Nat × Nat × List Char)
  | [], result, digitCount => some (result, digitCount, [])
  | c :: rest, result, digitCount =>
    match digitValue radix c with
    | none => some (result, digitCount, c :: rest)
    | some d =>
      let result' := result * radix + d
      if maxVal < result' then none
      else if maxDigits < digitCount + 1 then none
      else read_number_loop radix maxVal maxDigits rest result' (digitCount + 1)

/-- `Parser::read_number(radix, Some(maxDigits), allowZeroPrefix)`:
rejects empty digit sequences and (unless allowed) a leading zero on a
multi-digit number. -/
def read_number (radix maxVal maxDigits : Nat) (allowZeroPrefix : Bool)
    (s : List Char) : Option (Nat × List Char) :=
  let hasLeadingZero := match s with | '0' :: _ => true | _ => false
  match read_number_loop radix maxVal maxDigits s 0 0 with
  | none => none
  | some (result, digitCount, rest) =>
    if digitCount = 0 then none
    else if !allowZeroPrefix && hasLeadingZero && digitCount > 1 then none
    else some (result, rest)

/-- `Parser::read_given_char`. -/
def read_given_char (c : Char) : List Char → Option (List Char)
  | [] => none
  | x :: rest => if x = c then some rest else none

/-- `Parser::read_separator(sep, index, inner)`: at index 0 just runs the
inner reader; at later indices requires the separator first. -/
def read_separator (sep : Char) (i : Nat)
    (inner : List Char → Option (α × List Char)) (s : List Char) :
    Option (α × List Char) :=
  if i = 0 then inner s
  else
    match read_given_char sep s with
    | some s' => inner s'
    | none => none

/-- `Parser::read_ipv4_addr`: four `u8` decimal octets separated by '.'
(the Rust loop over indices 0..4 is unrolled). -/
def read_ipv4_addr (s : List Char) : Option ((Nat × Nat × Nat × Nat) × List Char) :=
  match read_separator '.' 0 (read_number 10 255 3 false) s with
  | none => none
  | some (a, s1) =>
    match read_separator '.' 1 (read_number 10 255 3 false) s1 with
    | none => none
    | some (b, s2) =>
      match read_separator '.' 2 (read_number 10 255 3 false) s2 with
      | none => none
      | some (c, s3) =>
        match read_separator '.' 3 (read_number 10 255 3 false) s3 with
        | none => none
        | some (d, s4) => some ((a, b, c, d), s4)

/-- The `read_groups` helper of `Parser::read_ipv6_addr`.  The fuel is the
number of group slots still available (`limit - i` in the Rust loop), `i`
the current group index (used for the ':' separator).  When at least two
slots remain, a trailing embedded IPv4 address may fill two groups.
Returns (groups read, whether an embedded IPv4 ended the read, remaining
input). -/
def read_groups_aux : Nat → Nat → List Nat → List Char → (List Nat × Bool × List Char)
  | 0, _, acc, s => (acc, false, s)
  | n + 1, i, acc, s =>
    let v4 := if n ≥ 1 then read_separator ':' i read_ipv4_addr s else none
    match v4 with
    | some ((a, b, c, d), s') => (acc ++ [a * 256 + b, c * 256 + d], true, s')
    | none =>
      match read_separator ':' i (read_number 16 65535 4 true) s with
      | some (g, s') => read_groups_aux n (i + 1) (acc ++ [g]) s'
      | none => (acc, false, s)

/-- `Parser::read_ipv6_addr`: up to 8 head groups; if fewer, a "::" and
then tail groups that are right-aligned, with zeros in between. -/
def read_ipv6_addr (s : List Char) : Option (List Nat × List Char) :=
  let (head, head_ipv4, s1) := read_groups_aux 8 0 [] s
  if head.length = 8 then some (head, s1)
  else if head_ipv4 then none
  else
    match read_given_char ':' s1 with
    | none => none
    | some s2 =>
      match read_given_char ':' s2 with
      | none => none
      | some s3 =>
        let limit := 8 - (head.length + 1)
        let (tail, _, s4) := read_groups_aux limit 0 [] s3
        some (head ++ List.replicate (8 - head.length - tail.length) 0 ++ tail, s4)

/-- `Parser::read_ip_addr`: try IPv4 first, then IPv6. -/
def read_ip_addr (s : List Char) : Option (IpAddr × List Char) :=
  match read_ipv4_addr s with
  | some ((a, b, c, d), rest) => some (IpAddr.V4 a b c d, rest)
  | none =>
    match read_ipv6_addr s with
    | some (gs, rest) => some (IpAddr.V6 gs, rest)
    | none => none

/-- `text.parse::<IpAddr>()`: the read must consume the whole input
(`Parser::parse_with`). -/
def parse_ip (s : String) : Option IpAddr :=
  match read_ip_addr s.data with
  | some (a, []) => some a
  | _ => none

/-! ## `utils::detect_record_type` (`src/utils.rs` lines 26-39)

The Rust function builds one iterator `addrs` and calls `.all(...)` on it
up to three times.  `Iterator::all` advances the iterator it is called on:
it consumes elements until the predicate is false (leaving the failing
element consumed) or the iterator is exhausted.  `iterAll` models one such
call, returning the result and the iterator's remaining elements. -/

/-- One `Iterator::all(p)` call on an iterator holding the given remaining
elements: short-circuits at the first `false`, returning the elements not
yet consumed. -/
def iterAll (p : α → Bool) : List α → Bool × List α
  | [] => (true, [])
  | x :: xs => if p x then iterAll p xs else (false, xs)

/-- `utils::detect_record_type`: the `addrs` iterator is shared by the
three `.all` calls, so the second and third run on whatever the earlier
calls left unconsumed.  (`addr.unwrap()` panics on a parse error; it is
modelled by a default value, and is only ever applied to elements whose
parse already succeeded or to no element at all.) -/
def detect_record_type (v : List String) : RrType :=
  let r1 := iterAll (fun text => (parse_ip text).isSome) v
  if r1.1 then
    let r2 := iterAll (fun text => ((parse_ip text).getD (IpAddr.V4 0 0 0 0)).is_ipv4) r1.2
    if r2.1 then RrType.A
    else
      let r3 := iterAll (fun text => ((parse_ip text).getD (IpAddr.V4 0 0 0 0)).is_ipv6) r2.2
      if r3.1 then RrType.Aaaa else RrType.Txt
  else RrType.Txt

/-! ## Zone discovery

`utils::get_hosted_zone` (`src/utils.rs` lines 9-24) and the
suffix-climbing loop of `main` (`src/main.rs` lines 252-293). -/

/-- `utils::get_hosted_zone`: among the given (already name-filtered)
zones, find the first whose config's privacy flag matches the requested
visibility; failing that, under `PreferPublic` fall back to the first
listed zone, otherwise yield none. -/
def get_hosted_zone (zones : List HostedZone) (hosted_zone_type : HostedZoneType) :
    Option HostedZone :=
  let private_zone : Bool := decide (hosted_zone_type = HostedZoneType.Private)
  match zones.find? (fun z =>
      match z.config with
      | some c => decide (c.private_zone = private_zone)
      | none => false) with
  | some zone => some zone
  | none =>
    if hosted_zone_type = HostedZoneType.PreferPublic then zones.head? else none

/-- Rust `str::split_once('.')`: split at the first occurrence of the
separator, or `none` when it does not occur. -/
def split_once_char (sep : Char) : List Char → Option (List Char × List Char)
  | [] => none
  | c :: rest =>
    if c = sep then some ([], rest)
    else
      match split_once_char sep rest with
      | some (a, b) => some (c :: a, b)
      | none => none

/-- The suffix-climbing `loop` of `main` (`src/main.rs` lines 261-285),
instrumented with the list of search names attempted.  Each iteration
filters the zone list by the current `search_name` and applies
`get_hosted_zone` with the current visibility `t`; on failure it drops the
leftmost label (`split_once(".")`), and once no separator remains it
either flips the visibility to Private (only when the caller's preference
is `PreferPublic` and `t` is still Public — note the Rust code does NOT
reset `search_name` here) or gives up (the `panic!`).

The `fuel` argument makes the recursion structural; each step either
shortens `search_name` or performs the single Public→Private flip, so with
the entry fuel of `zone_search_fuel_sufficient` it is never exhausted
(result `none`).  `some none` is the panic, `some (some z)` the found
zone. -/
def zone_search_trace (zones : List HostedZone) (pref : HostedZoneType) :
    Nat → List Char → HostedZoneType → List (List Char) × Option (Option HostedZone)
  | 0, _, _ => ([], none)
  | fuel + 1, search_name, t =>
    match get_hosted_zone (zones.filter (fun z => decide (z.name.data = search_name))) t with
    | some zone => ([search_name], some (some zone))
    | none =>
      match split_once_char '.' search_name with
      | some (_, rest) =>
        let r := zone_search_trace zones pref fuel rest t
        (search_name :: r.1, r.2)
      | none =>
        if pref = HostedZoneType.PreferPublic ∧ t = HostedZoneType.Public then
          let r := zone_search_trace zones pref fuel search_name HostedZoneType.Private
          (search_name :: r.1, r.2)
        else ([search_name], some none)

/-- Entry into the suffix-climbing search (`src/main.rs` lines 252-260):
the loop starts from the full record name with visibility Public when the
preference is Public or PreferPublic, else Private. -/
def resolve_zone_trace (zones : List HostedZone) (pref : HostedZoneType)
    (record_name : String) : List (List Char) × Option (Option HostedZone) :=
  let t0 := if pref = HostedZoneType.Public ∨ pref = HostedZoneType.PreferPublic
    then HostedZoneType.Public else HostedZoneType.Private
  zone_search_trace zones pref (record_name.data.length + 2) record_name.data t0

/-- The zone selected by the suffix-climbing search; `none` is the
`panic!("could not find the hosted zone for: ...")` case. -/
def resolve_zone (zones : List HostedZone) (pref : HostedZoneType)
    (record_name : String) : Option HostedZone :=
  ((resolve_zone_trace zones pref record_name).2).join

/-! ## TXT value quoting (`src/main.rs` lines 200-212) -/

/-- One application of the TXT quoting step to a value:
`v.starts_with('"') && v.ends_with('"')` tests the first and last
character; if both are the quote character the value is kept, otherwise it
is wrapped as `format!("\"{}\"", v)`. -/
def quote_txt (v : String) : String :=
  if v.data.head? = some '"' ∧ v.data.getLast? = some '"' then v
  else "\"" ++ v ++ "\""

/-! ## TTL resolution (`src/main.rs` lines 309-321) -/

/-- The search predicate of the TTL lookup:
`r.name() == &args.record_name && Some(r.r#type()) == args.record_type.as_ref()`. -/
def ttl_match (record_name : String) (record_type : Option RrType)
    (r : ResourceRecordSet) : Bool :=
  decide (r.name = record_name) && decide (some r.rtype = record_type)

/-- TTL resolution when no explicit `--ttl` was supplied: find the first
record with matching name and type and take `r.ttl().unwrap()` (result
`none` models that `unwrap` panicking when the record has no TTL, e.g. an
alias record); when no record matches, default to 300. -/
def resolve_ttl (record_name : String) (record_type : Option RrType)
    (records : List ResourceRecordSet) : Option Int :=
  match (records.find? (ttl_match record_name record_type)).map (fun r => r.ttl) with
  | some (some t) => some t
  | some none => none
  | none => some 300

/-! ## Conflict clearing (`src/main.rs` lines 328-347) -/

/-- The three chained `.filter` calls selecting the records to delete:
name equals the target name; then `args.record_type == Some(Cname) ||`
the record's type is A, AAAA or CNAME; then the record's type differs
from the target type. -/
def clear_filter (record_name : String) (record_type : Option RrType)
    (records : List ResourceRecordSet) : List ResourceRecordSet :=
  ((records.filter (fun r => decide (r.name = record_name))).filter
      (fun r =>
        decide (record_type = some RrType.Cname) ||
          (decide (r.rtype = RrType.A) || decide (r.rtype = RrType.Aaaa) ||
            decide (r.rtype = RrType.Cname)))).filter
    (fun r => !decide (some r.rtype = record_type))

/-! ## ECS metadata value extraction (`src/main.rs` lines 124-148) -/

/-- Value extraction from a fetched ECS task metadata document: take the
first container's first network (`first().unwrap()` panics — `none` —
when either list is empty); when the desired type is A and an IPv4 list is
present, use it with empty strings filtered out; when the desired type is
AAAA and an IPv6 list is present, use it as is; otherwise keep the current
value list. -/
def ecs_metadata_values (record_type : Option RrType) (md : EcsTaskMetadata)
    (value : List String) : Option (List String) :=
  match md.containers.head? with
  | none => none
  | some container =>
    match container.networks.head? with
    | none => none
    | some network =>
      some
        (if decide (record_type = some RrType.A) && network.ipv4_addresses.isSome then
          (network.ipv4_addresses.getD []).filter (fun address => !address.isEmpty)
        else if decide (record_type = some RrType.Aaaa) && network.ipv6_addresses.isSome then
          network.ipv6_addresses.getD []
        else value)

/-! ## The `main` pipeline (`src/main.rs` lines 98-424)

`main` is modelled as a function of the parsed arguments and an oracle
`World` supplying the response of every external call.  The returned trace
lists the external calls actually issued, in order (plus the one warning
the claims refer to); the outcome is either success or the message of the
`panic!`/`expect` that terminated the process.  Purely diagnostic
`eprintln!` output is not modelled. -/

/-- The parsed command-line `Arguments` struct. -/
structure Args where
  hosted_zone_id : Option String
  hosted_zone_name : Option String
  hosted_zone_type : HostedZoneType
  record_name : String
  record_type : Option RrType
  value : List String
  value_from : Option ValueFromSource
  value_from_url : Option String
  ip_address_type : IPAddressType
  ttl : Option Int
  comment : Option String
  wait : Bool
  clear : Bool
deriving DecidableEq, Repr

/-- External calls issued by `main` (plus the record-set truncation
warning, which is an `eprintln!`, not a call). -/
inductive Event where
  | EcsFetch        -- GET {ECS_CONTAINER_METADATA_URI}/task
  | ImdsFetch       -- EC2 instance metadata GET
  | UrlFetch        -- GET of --value-from-url
  | ListZones       -- route53 ListHostedZones
  | ListRecordSets  -- route53 ListResourceRecordSets
  | WarnRecordSetsTruncated -- the best-effort warning (not a network call)
  | DeleteBatch     -- route53 ChangeResourceRecordSets (deletes)
  | UpsertBatch     -- route53 ChangeResourceRecordSets (upsert)
  | GetChange       -- route53 GetChange poll
deriving DecidableEq, Repr

/-- Process outcome: normal exit or a `panic!`/`expect` abort. -/
inductive Outcome where
  | ok
  | panic (msg : String)
deriving DecidableEq, Repr

/-- Responses of the external collaborators for one invocation.
For `ecs`: `none` means the ECS metadata environment variables are unset
(no fetch happens); `some (.error code)` a non-200 response (panic);
`some (.ok md)` the decoded document.  For `imds`: `none` means the IMDS
request failed (silently ignored by the code).  For `url`: `none` means
the request itself failed (`unwrap` panic).  For the two listings:
`none` means the SDK call failed (`expect` panic), otherwise the items
and the `is_truncated` flag. -/
structure World where
  ecs : Option (Except Nat EcsTaskMetadata)
  imds : Option String
  url : Option (Nat × String)
  list_zones : Option (List HostedZone × Bool)
  list_rrsets : Option (List ResourceRecordSet × Bool)
  delete_ok : Bool
  upsert_ok : Bool
  polls_until_insync : Nat

/-- The argument validation chain (`src/main.rs` lines 103-114); `some`
is the panic message. -/
def validate (args : Args) : Option String :=
  if args.hosted_zone_id.isSome && args.hosted_zone_name.isSome then
    some "can only use one of --hosted-zone-id or --hosted-zone-name."
  else if (!args.value.isEmpty && args.value_from.isSome) ||
      (!args.value.isEmpty && args.value_from_url.isSome) ||
      (args.value_from.isSome && args.value_from_url.isSome) then
    some "can only use one of --value, --value-from, or --value-from-url."
  else if args.value.isEmpty && args.value_from.isNone && args.value_from_url.isNone then
    some "value must be supplied with either --value, --value-from, or --value-from-url."
  else if args.record_type.isSome && decide (args.record_type = some RrType.Txt) && args.clear then
    some "--clear only works with A, AAAA, or CNAME"
  else none

/-- Record-name normalization (`src/main.rs` lines 116-118): ensure a
trailing dot (`ends_with(".")` tests the last character). -/
def normalize_name (n : String) : String :=
  if n.data.getLast? = some '.' then n else n ++ "."

/-- Rust `str::trim`: strip leading and trailing whitespace. -/
def rust_trim (s : String) : String :=
  String.mk (((s.data.dropWhile Char.isWhitespace).reverse.dropWhile Char.isWhitespace).reverse)

/-- The IMDS path selection (`src/main.rs` lines 154-159); `none` is the
`panic!("--value-from is only usable with --record-type A or AAAA")`
arm. -/
def imds_path : Option RrType → IPAddressType → Option String
  | some RrType.A, IPAddressType.Public => some "public-ipv4"
  | none, IPAddressType.Public => some "public-ipv4"
  | some RrType.A, IPAddressType.Private => some "local-ipv4"
  | none, IPAddressType.Private => some "local-ipv4"
  | some RrType.Aaaa, _ => some "ipv6"
  | _, _ => none

/-- Value resolution (`src/main.rs` lines 120-185): the `--value-from`
branch (ECS metadata probe, then EC2 IMDS probe, then the auto-detect
failure check) or the `--value-from-url` branch (GET, non-200 panic,
trimmed body as single value); with plain `--value` the list is used as
is.  Returns the events issued and either a panic message or the resolved
value list. -/
def stage_value (args : Args) (w : World) : List Event × Except String (List String) :=
  match args.value_from with
  | some source =>
    let ecsStep : List Event × Except String (List String) :=
      if source = ValueFromSource.EcsMetadata ∨ source = ValueFromSource.Auto then
        match w.ecs with
        | none => ([], Except.ok args.value)
        | some (Except.error code) =>
          ([Event.EcsFetch],
            Except.error ("response from the task metadata endpoint returned non-200 status code: "
              ++ toString code))
        | some (Except.ok md) =>
          match ecs_metadata_values args.record_type md args.value with
          | none => ([Event.EcsFetch], Except.error "called unwrap on a None value")
          | some v => ([Event.EcsFetch], Except.ok v)
      else ([], Except.ok args.value)
    match ecsStep with
    | (evs, Except.error msg) => (evs, Except.error msg)
    | (evs, Except.ok value1) =>
      if source = ValueFromSource.Ec2Metadata ∨
          (source = ValueFromSource.Auto ∧ value1.isEmpty) then
        match imds_path args.record_type args.ip_address_type with
        | none =>
          (evs, Except.error "--value-from is only usable with --record-type A or AAAA")
        | some _path =>
          let value2 := match w.imds with
            | some v => value1 ++ [v]
            | none => value1
          if source = ValueFromSource.Auto ∧ value2.isEmpty then
            (evs ++ [Event.ImdsFetch],
              Except.error "unable to auto-detect an IP address to use (missing ECS environment variables and unable to connect to the EC2 instance metadata service)")
          else (evs ++ [Event.ImdsFetch], Except.ok value2)
      else
        if source = ValueFromSource.Auto ∧ value1.isEmpty then
          (evs,
            Except.error "unable to auto-detect an IP address to use (missing ECS environment variables and unable to connect to the EC2 instance metadata service)")
        else (evs, Except.ok value1)
  | none =>
    match args.value_from_url with
    | some url =>
      match w.url with
      | none => ([Event.UrlFetch], Except.error "error sending request")
      | some (status, body) =>
        if status ≠ 200 then
          ([Event.UrlFetch],
            Except.error ("response from " ++ url ++ " returned non-200 status code: "
              ++ toString status))
        else ([Event.UrlFetch], Except.ok [rust_trim body])
    | none => ([], Except.ok args.value)

/-- Type detection and TXT quoting (`src/main.rs` lines 192-212): when no
type was given, detect it from the values and re-check the `--clear`/TXT
incompatibility; then wrap TXT values in quotes. -/
def stage_type (args : Args) : Except String Args :=
  let step1 : Except String Args :=
    if args.record_type.isNone then
      let detected := detect_record_type args.value
      if decide (detected = RrType.Txt) && args.clear then
        Except.error "--clear only works with A, AAAA, or CNAME"
      else Except.ok { args with record_type := some detected }
    else Except.ok args
  match step1 with
  | Except.error msg => Except.error msg
  | Except.ok args1 =>
    if args1.record_type = some RrType.Txt then
      Except.ok { args1 with value := args1.value.map quote_txt }
    else Except.ok args1

/-- Zone discovery (`src/main.rs` lines 223-294): when no zone id was
given, list the zones once (failure and truncation are fatal), then either
filter by the explicit `--hosted-zone-name` or run the suffix-climbing
search from the record name; the found zone's id is stored. -/
def stage_zone (args : Args) (w : World) : List Event × Except String Args :=
  if args.hosted_zone_id.isNone then
    match w.list_zones with
    | none => ([Event.ListZones], Except.error "could not list hosted zones")
    | some (zones, truncated) =>
      if truncated then
        ([Event.ListZones],
          Except.error "you have a lot of hosted zones and this program does not paginate yet, please use --hosted-zone-id")
      else
        match args.hosted_zone_name with
        | some hzn0 =>
          let hzn := normalize_name hzn0
          match get_hosted_zone (zones.filter (fun z => decide (z.name = hzn)))
              args.hosted_zone_type with
          | some zone =>
            ([Event.ListZones], Except.ok { args with hosted_zone_id := some zone.id })
          | none =>
            ([Event.ListZones],
              Except.error ("could not find a hosted zone with name: " ++ hzn))
        | none =>
          match resolve_zone zones args.hosted_zone_type args.record_name with
          | some zone =>
            ([Event.ListZones], Except.ok { args with hosted_zone_id := some zone.id })
          | none =>
            ([Event.ListZones],
              Except.error ("could not find the hosted zone for: " ++ args.record_name))
  else ([], Except.ok args)

/-- TTL resolution and conflict clearing (`src/main.rs` lines 296-362):
when no TTL was given or clearing was requested, list the record sets once
(failure is fatal, truncation only warns); adopt the TTL of a same-name
same-type record (whose missing TTL field panics) or default to 300; when
clearing, delete the conflicting records (`clear_filter`) in one batch if
any were selected. -/
def stage_ttl_clear (args : Args) (w : World) : List Event × Except String Args :=
  if args.ttl.isNone || args.clear then
    match w.list_rrsets with
    | none => ([Event.ListRecordSets], Except.error "could not list record sets")
    | some (rrsets, truncated) =>
      let evs := [Event.ListRecordSets] ++
        (if truncated then [Event.WarnRecordSetsTruncated] else [])
      let ttlStep : Except String (Option Int) :=
        if args.ttl.isNone then
          match resolve_ttl args.record_name args.record_type rrsets with
          | some t => Except.ok (some t)
          | none => Except.error "called unwrap on a None value"
        else Except.ok args.ttl
      match ttlStep with
      | Except.error msg => (evs, Except.error msg)
      | Except.ok ttl1 =>
        if args.clear then
          let deletes := clear_filter args.record_name args.record_type rrsets
          if deletes.isEmpty then (evs, Except.ok { args with ttl := ttl1 })
          else if w.delete_ok then
            (evs ++ [Event.DeleteBatch], Except.ok { args with ttl := ttl1 })
          else (evs ++ [Event.DeleteBatch], Except.error "could not delete DNS records")
        else (evs, Except.ok { args with ttl := ttl1 })
  else ([], Except.ok args)

/-- The `GetChange` polls of the wait loop: `n` is the number of polls
that report a still-pending status before `Insync` is observed (the Rust
loop is unbounded; it terminates as soon as `Insync` appears). -/
def wait_events : Nat → List Event
  | 0 => [Event.GetChange]
  | n + 1 => Event.GetChange :: wait_events n

/-- Upsert submission and the optional propagation wait
(`src/main.rs` lines 364-424). -/
def stage_submit (args : Args) (w : World) : List Event × Outcome :=
  if w.upsert_ok then
    if args.wait then ([Event.UpsertBatch] ++ wait_events w.polls_until_insync, Outcome.ok)
    else ([Event.UpsertBatch], Outcome.ok)
  else ([Event.UpsertBatch], Outcome.panic "could not update DNS")

/-- The whole of `main` (`src/main.rs` lines 98-424): validation,
record-name normalization, value resolution, the empty-value sanity check
(line 188-190), type detection and TXT quoting, zone discovery, TTL
resolution and conflict clearing, and the final upsert. -/
def run_main (args0 : Args) (w : World) : List Event × Outcome :=
  match validate args0 with
  | some msg => ([], Outcome.panic msg)
  | none =>
    let args := { args0 with record_name := normalize_name args0.record_name }
    match stage_value args w with
    | (evs1, Except.error msg) => (evs1, Outcome.panic msg)
    | (evs1, Except.ok value1) =>
      if value1.isEmpty then (evs1, Outcome.panic "somehow value is []")
      else
        match stage_type { args with value := value1 } with
        | Except.error msg => (evs1, Outcome.panic msg)
        | Except.ok args2 =>
          match stage_zone args2 w with
          | (evs2, Except.error msg) => (evs1 ++ evs2, Outcome.panic msg)
          | (evs2, Except.ok args3) =>
            match stage_ttl_clear args3 w with
            | (evs3, Except.error msg) => (evs1 ++ evs2 ++ evs3, Outcome.panic msg)
            | (evs3, Except.ok args4) =>
              let r := stage_submit args4 w
              (evs1 ++ evs2 ++ evs3 ++ r.1, r.2)


/-! # Theorems

Helper lemmas first, then one theorem per claim (with witnesses and
counterexamples where required). -/

/-- The suffix after the first separator is strictly shorter than the
whole string. -/
theorem split_once_char_length (sep : Char) :
    ∀ (l a b : List Char), split_once_char sep l = some (a, b) → b.length < l.length := by
  intro l
  induction l with
  | nil => intro a b h; simp [split_once_char] at h
  | cons c rest ih =>
    intro a b h
    by_cases hc : c = sep
    · simp only [split_once_char, if_pos hc] at h
      injection h with h'
      have hb : b = rest := (congrArg Prod.snd h').symm
      subst hb
      simp
    · simp only [split_once_char, if_neg hc] at h
      match hr : split_once_char sep rest with
      | none => rw [hr] at h; exact absurd h (by simp)
      | some (a', b') =>
        rw [hr] at h
        injection h with h'
        have hb : b = b' := (congrArg Prod.snd h').symm
        have hlt := ih a' b' hr
        subst hb
        simp
        omega

/-- The fuel of `resolve_zone_trace` is never exhausted: every loop
iteration either strictly shortens the search name or performs the single
Public→Private flip. -/
theorem zone_search_fuel_sufficient (zones : List HostedZone) (pref : HostedZoneType) :
    ∀ (fuel : Nat) (name : List Char) (t : HostedZoneType),
      name.length + 1 + (if t = HostedZoneType.Public then 1 else 0) ≤ fuel →
      (zone_search_trace zones pref fuel name t).2 ≠ none := by
  intro fuel
  induction fuel with
  | zero =>
    intro name t h
    have h' : name.length + 1 ≤ 0 := Nat.le_trans (Nat.le_add_right _ _) h
    omega
  | succ n ih =>
    intro name t h
    simp only [zone_search_trace]
    cases hz : get_hosted_zone (zones.filter (fun z => decide (z.name.data = name))) t with
    | some zone => simp
    | none =>
      cases hs : split_once_char '.' name with
      | some ab =>
        obtain ⟨a, rest⟩ := ab
        have hlen := split_once_char_length '.' name a rest hs
        simp only
        refine ih rest t ?_
        rcases Decidable.em (t = HostedZoneType.Public) with ht | ht
        · simp only [if_pos ht] at h ⊢; omega
        · simp only [if_neg ht] at h ⊢; omega
      | none =>
        simp only
        by_cases hcond : pref = HostedZoneType.PreferPublic ∧ t = HostedZoneType.Public
        · rw [if_pos hcond]
          refine ih name HostedZoneType.Private ?_
          rw [hcond.2] at h
          simp at h ⊢
          omega
        · rw [if_neg hcond]
          simp

/-- `String.data` distributes over append. -/
theorem string_data_append (a b : String) : (a ++ b).data = a.data ++ b.data := by
  cases a; cases b; rfl

/-- C1 (code bug): the Type Detector is claimed to return AAAA for
all-IPv6 values and TXT for mixed families, but because each
`Iterator::all` call consumes the shared `addrs` iterator, the second
`.all` runs on an exhausted iterator and is vacuously true whenever every
value parses, so the function returns A for every all-parsing value list —
including all-IPv6 and mixed ones.  (The all-IPv4 and non-address cases
behave as claimed.) -/
theorem detect_record_type_C1 :
    detect_record_type ["::1"] = RrType.A ∧
      detect_record_type ["1.2.3.4", "::1"] = RrType.A ∧
      detect_record_type ["203.0.113.5"] = RrType.A ∧
      detect_record_type ["hello"] = RrType.Txt := by decide

/-- C2 (counterexample): with target type CNAME, the clear filter is
claimed to select only records of type A, AAAA or CNAME, but the code's
first disjunct (`args.record_type == Some(Cname)`) admits records of every
type: a TXT record at the target name is selected for deletion. -/
theorem clear_filter_C2_counterexample :
    clear_filter "example.com." (some RrType.Cname)
        [⟨"example.com.", RrType.Txt, some 300, ["v"]⟩] =
      [⟨"example.com.", RrType.Txt, some 300, ["v"]⟩] := by decide

/-- C2 (amended): a record is selected for deletion iff its name equals
the target name and either (target CNAME) its type is anything other than
CNAME, or (target not CNAME) its type is one of A, AAAA, CNAME and differs
from the target type. -/
theorem clear_filter_C2_amended (record_name : String) (rt : RrType)
    (records : List ResourceRecordSet) (r : ResourceRecordSet) :
    r ∈ clear_filter record_name (some rt) records ↔
      r ∈ records ∧ r.name = record_name ∧
        ((rt = RrType.Cname ∧ r.rtype ≠ RrType.Cname) ∨
          (rt ≠ RrType.Cname ∧
            (r.rtype = RrType.A ∨ r.rtype = RrType.Aaaa ∨ r.rtype = RrType.Cname) ∧
            r.rtype ≠ rt)) := by
  by_cases hc : rt = RrType.Cname <;>
    simp [clear_filter, List.mem_filter, hc] <;> tauto

/-- C5 (counterexample): with desired type AAAA, the values taken from the
ECS metadata document are claimed to have empty-string entries removed,
but the code only filters the IPv4 branch; the IPv6 list is used
verbatim, blank entry included. -/
theorem ecs_values_C5_counterexample :
    ecs_metadata_values (some RrType.Aaaa)
        ⟨[⟨[⟨none, some ["", "2001:db8::1"]⟩]⟩]⟩ [] = some ["", "2001:db8::1"] := by decide

/-- C5 (amended): from the first container's first network, desired type A
selects the IPv4 list with empty strings filtered out, while desired type
AAAA selects the IPv6 list unchanged. -/
theorem ecs_values_C5_amended (v4 v6 value : List String) :
    ecs_metadata_values (some RrType.A) ⟨[⟨[⟨some v4, some v6⟩]⟩]⟩ value =
        some (v4.filter (fun address => !address.isEmpty)) ∧
      ecs_metadata_values (some RrType.Aaaa) ⟨[⟨[⟨some v4, some v6⟩]⟩]⟩ value = some v6 := by
  constructor <;> rfl

/-- C6: with no explicit TTL, the resolver adopts the TTL of the first
existing record with matching name and type when that record carries one,
and defaults to 300 when no record matches. -/
theorem resolve_ttl_C6 (record_name : String) (record_type : Option RrType)
    (records : List ResourceRecordSet) :
    (∀ (r : ResourceRecordSet) (t : Int),
        records.find? (ttl_match record_name record_type) = some r →
        r.ttl = some t → resolve_ttl record_name record_type records = some t) ∧
      (records.find? (ttl_match record_name record_type) = none →
        resolve_ttl record_name record_type records = some 300) := by
  constructor
  · intro r t hf ht
    simp [resolve_ttl, hf, ht]
  · intro hf
    simp [resolve_ttl, hf]

/-- C6 witness: a matching record with TTL 600 yields 600; an empty
listing yields the default 300. -/
theorem resolve_ttl_C6_witness :
    resolve_ttl "app.example.com." (some RrType.A)
        [⟨"app.example.com.", RrType.A, some 600, ["203.0.113.5"]⟩] = some 600 ∧
      resolve_ttl "app.example.com." (some RrType.A) [] = some 300 :=
  ⟨(resolve_ttl_C6 "app.example.com." (some RrType.A)
        [⟨"app.example.com.", RrType.A, some 600, ["203.0.113.5"]⟩]).1
      ⟨"app.example.com.", RrType.A, some 600, ["203.0.113.5"]⟩ 600 (by decide) rfl,
    (resolve_ttl_C6 "app.example.com." (some RrType.A) []).2 (by decide)⟩

/-- C10: when the first record with matching name and type has no TTL
field (an alias record), TTL resolution panics (`r.ttl().unwrap()`, here
the `none` outcome) rather than adopting a TTL or defaulting to 300. -/
theorem resolve_ttl_C10 (record_name : String) (record_type : Option RrType)
    (records : List ResourceRecordSet) (r : ResourceRecordSet) :
    records.find? (ttl_match record_name record_type) = some r → r.ttl = none →
    resolve_ttl record_name record_type records = none := by
  intro hf ht
  simp [resolve_ttl, hf, ht]

/-- C10 witness: an alias-style record (no TTL) at the target name and
type makes TTL resolution panic. -/
theorem resolve_ttl_C10_witness :
    resolve_ttl "app.example.com." (some RrType.A)
        [⟨"app.example.com.", RrType.A, none, []⟩] = none :=
  resolve_ttl_C10 "app.example.com." (some RrType.A)
    [⟨"app.example.com.", RrType.A, none, []⟩]
    ⟨"app.example.com.", RrType.A, none, []⟩ (by decide) rfl

/-- C8: the TXT quoting step leaves an already-quoted value (first and
last character are the quote character) unchanged, and applying it twice
equals applying it once. -/
theorem quote_txt_C8 :
    (∀ v : String, v.data.head? = some '"' → v.data.getLast? = some '"' →
        quote_txt v = v) ∧
      ∀ v : String, quote_txt (quote_txt v) = quote_txt v := by
  constructor
  · intro v h1 h2
    simp [quote_txt, h1, h2]
  · intro v
    by_cases h : v.data.head? = some '"' ∧ v.data.getLast? = some '"'
    · have hv : quote_txt v = v := by rw [quote_txt, if_pos h]
      rw [hv]
      exact hv
    · have hv : quote_txt v = "\"" ++ v ++ "\"" := by rw [quote_txt, if_neg h]
      have hhead : ("\"" ++ v ++ "\"").data.head? = some '"' := by
        rw [string_data_append, string_data_append]
        rfl
      have hlast : ("\"" ++ v ++ "\"").data.getLast? = some '"' := by
        rw [string_data_append]
        exact List.getLast?_concat _
      rw [hv, quote_txt, if_pos ⟨hhead, hlast⟩]

/-- C8 witness: a quoted value is left unchanged and quoting a plain value
is idempotent, at concrete inputs. -/
theorem quote_txt_C8_witness :
    quote_txt "\"hi\"" = "\"hi\"" ∧ quote_txt (quote_txt "hi") = quote_txt "hi" :=
  ⟨quote_txt_C8.1 "\"hi\"" rfl rfl, quote_txt_C8.2 "hi"⟩

/-- C3 (code bug): with both a public and a private zone named
`example.com.` and preference PreferPublic, the suffix search selects the
public zone, as claimed; but with only a private zone the search returns
the panic outcome (`none`) instead of the claimed private-zone fallback,
because the Public→Private retry never resets the search name (it retries
only the exhausted empty suffix). -/
theorem zone_resolution_C3 :
    resolve_zone [⟨"Z1", "example.com.", some ⟨false⟩⟩, ⟨"Z2", "example.com.", some ⟨true⟩⟩]
        HostedZoneType.PreferPublic "x.example.com." =
      some ⟨"Z1", "example.com.", some ⟨false⟩⟩ ∧
      resolve_zone [⟨"Z2", "example.com.", some ⟨true⟩⟩]
        HostedZoneType.PreferPublic "x.example.com." = none := by decide

/-- C4 (counterexample): the suffix search on `a.b.c.example.com.` is
claimed to attempt exactly the five suffixes down to `com.`, but the code
also probes the empty suffix after `com.` before failing. -/
theorem zone_suffix_C4_counterexample :
    (resolve_zone_trace [] HostedZoneType.Public "a.b.c.example.com.").1 ≠
      ["a.b.c.example.com.".data, "b.c.example.com.".data, "c.example.com.".data,
        "example.com.".data, "com.".data] := by decide

/-- C4 (amended): the suffix search attempts `a.b.c.example.com.`,
`b.c.example.com.`, `c.example.com.`, `example.com.`, `com.` and finally
the empty suffix (twice under PreferPublic, once with Private visibility)
before failing fatally, and it stops at the first suffix for which a zone
is selected. -/
theorem zone_suffix_C4_amended :
    resolve_zone_trace [] HostedZoneType.Public "a.b.c.example.com." =
        (["a.b.c.example.com.".data, "b.c.example.com.".data, "c.example.com.".data,
          "example.com.".data, "com.".data, "".data], some none) ∧
      resolve_zone_trace [] HostedZoneType.PreferPublic "a.b.c.example.com." =
        (["a.b.c.example.com.".data, "b.c.example.com.".data, "c.example.com.".data,
          "example.com.".data, "com.".data, "".data, "".data], some none) ∧
      resolve_zone_trace [⟨"Z1", "example.com.", some ⟨false⟩⟩] HostedZoneType.Public
          "a.b.c.example.com." =
        (["a.b.c.example.com.".data, "b.c.example.com.".data, "c.example.com.".data,
          "example.com.".data], some (some ⟨"Z1", "example.com.", some ⟨false⟩⟩)) := by decide

/-- C7 (counterexample): when TXT results from auto-detection of a value
fetched from a URL, the fatal `--clear`/TXT error is raised only after the
URL fetch — a network call — contradicting the claim that the error
precedes any network call in the auto-detection case as well. -/
theorem txt_clear_C7_counterexample :
    run_main
        { hosted_zone_id := none, hosted_zone_name := none,
          hosted_zone_type := HostedZoneType.PreferPublic, record_name := "app.example.com",
          record_type := none, value := [], value_from := none,
          value_from_url := some "http://checkip.example/",
          ip_address_type := IPAddressType.Public, ttl := none, comment := none,
          wait := false, clear := true }
        { ecs := none, imds := none, url := some (200, "hello"),
          list_zones := some ([], false), list_rrsets := some ([], false),
          delete_ok := true, upsert_ok := true, polls_until_insync := 0 } =
      ([Event.UrlFetch], Outcome.panic "--clear only works with A, AAAA, or CNAME") := by
  decide

/-- C7 (amended): clearing plus TXT is a fatal configuration error raised
before any Route 53 call.  With an explicit TXT type it fires during
argument validation, before any external call at all; with TXT
auto-detected from explicit values likewise; but when the value itself is
fetched (e.g. `--value-from-url`), that value fetch precedes the error. -/
theorem txt_clear_C7_amended :
    (∀ (args : Args) (w : World),
        args.record_type = some RrType.Txt → args.clear = true →
        args.hosted_zone_id = none → args.value ≠ [] →
        args.value_from = none → args.value_from_url = none →
        run_main args w = ([], Outcome.panic "--clear only works with A, AAAA, or CNAME")) ∧
      (∀ (args : Args) (w : World),
        args.record_type = none → args.clear = true →
        args.hosted_zone_id = none → args.value ≠ [] →
        args.value_from = none → args.value_from_url = none →
        detect_record_type args.value = RrType.Txt →
        run_main args w = ([], Outcome.panic "--clear only works with A, AAAA, or CNAME")) ∧
      (∀ (args : Args) (w : World) (url body : String),
        args.record_type = none → args.clear = true →
        args.hosted_zone_id = none → args.value = [] →
        args.value_from = none → args.value_from_url = some url →
        w.url = some (200, body) →
        detect_record_type [rust_trim body] = RrType.Txt →
        run_main args w =
          ([Event.UrlFetch], Outcome.panic "--clear only works with A, AAAA, or CNAME")) := by
  refine ⟨?_, ?_, ?_⟩
  · intro args w h1 h2 h3 h4 h5 h6
    match hv : args.value with
    | [] => exact absurd hv h4
    | v :: vs =>
      simp [run_main, validate, h1, h2, h3, h5, h6, hv]
  · intro args w h1 h2 h3 h4 h5 h6 h7
    match hv : args.value with
    | [] => exact absurd hv h4
    | v :: vs =>
      rw [hv] at h7
      simp [run_main, validate, stage_value, stage_type, h1, h2, h3, h5, h6, hv, h7]
  · intro args w url body h1 h2 h3 h4 h5 h6 h7 h8
    simp [run_main, validate, stage_value, stage_type, h1, h2, h3, h4, h5, h6, h7, h8]

/-- C7 witness: the two no-network cases (explicit TXT; TXT detected from
an explicit value) and the URL case at concrete inputs. -/
theorem txt_clear_C7_amended_witness :
    run_main
        { hosted_zone_id := none, hosted_zone_name := none,
          hosted_zone_type := HostedZoneType.PreferPublic, record_name := "app.example.com",
          record_type := some RrType.Txt, value := ["hello"], value_from := none,
          value_from_url := none, ip_address_type := IPAddressType.Public, ttl := none,
          comment := none, wait := false, clear := true }
        { ecs := none, imds := none, url := none, list_zones := none, list_rrsets := none,
          delete_ok := true, upsert_ok := true, polls_until_insync := 0 } =
      ([], Outcome.panic "--clear only works with A, AAAA, or CNAME") ∧
      run_main
        { hosted_zone_id := none, hosted_zone_name := none,
          hosted_zone_type := HostedZoneType.PreferPublic, record_name := "app.example.com",
          record_type := none, value := ["hello"], value_from := none,
          value_from_url := none, ip_address_type := IPAddressType.Public, ttl := none,
          comment := none, wait := false, clear := true }
        { ecs := none, imds := none, url := none, list_zones := none, list_rrsets := none,
          delete_ok := true, upsert_ok := true, polls_until_insync := 0 } =
      ([], Outcome.panic "--clear only works with A, AAAA, or CNAME") ∧
      run_main
        { hosted_zone_id := none, hosted_zone_name := none,
          hosted_zone_type := HostedZoneType.PreferPublic, record_name := "app.example.com",
          record_type := none, value := [], value_from := none,
          value_from_url := some "http://checkip.example/",
          ip_address_type := IPAddressType.Public, ttl := none, comment := none,
          wait := false, clear := true }
        { ecs := none, imds := none, url := some (200, "hello"), list_zones := none,
          list_rrsets := none, delete_ok := true, upsert_ok := true,
          polls_until_insync := 0 } =
      ([Event.UrlFetch], Outcome.panic "--clear only works with A, AAAA, or CNAME") :=
  ⟨txt_clear_C7_amended.1 _ _ rfl rfl rfl (by decide) rfl rfl,
    txt_clear_C7_amended.2.1 _ _ rfl rfl rfl (by decide) rfl rfl (by decide),
    txt_clear_C7_amended.2.2 _ _ "http://checkip.example/" "hello" rfl rfl rfl rfl rfl rfl rfl
      (by decide)⟩

/-- C9: a truncated zone listing is fatal and stops the pipeline right
after the `ListHostedZones` call (no further calls are made), whereas a
truncated record-set listing only emits the warning and the pipeline
continues — TTL resolution and conflict clearing run on the partial
listing and the upsert is still submitted. -/
theorem truncation_C9 :
    (∀ (args : Args) (w : World) (v : String) (vs : List String) (rt : RrType)
        (zs : List HostedZone),
        args.value = v :: vs → args.value_from = none → args.value_from_url = none →
        args.hosted_zone_id = none → args.record_type = some rt → rt ≠ RrType.Txt →
        w.list_zones = some (zs, true) →
        run_main args w = ([Event.ListZones],
          Outcome.panic
            "you have a lot of hosted zones and this program does not paginate yet, please use --hosted-zone-id")) ∧
      (∀ (args : Args) (w : World) (v : String) (vs : List String) (rt : RrType)
        (rs : List ResourceRecordSet) (zid : String),
        args.value = v :: vs → args.value_from = none → args.value_from_url = none →
        args.hosted_zone_id = some zid → args.hosted_zone_name = none →
        args.record_type = some rt → rt ≠ RrType.Txt → args.clear = true →
        args.ttl = none → args.wait = false →
        w.list_rrsets = some (rs, true) → w.delete_ok = true → w.upsert_ok = true →
        resolve_ttl (normalize_name args.record_name) (some rt) rs ≠ none →
        (run_main args w).2 = Outcome.ok ∧
          Event.WarnRecordSetsTruncated ∈ (run_main args w).1 ∧
          Event.UpsertBatch ∈ (run_main args w).1) := by
  constructor
  · intro args w v vs rt zs h1 h2 h3 h4 h5 h6 h7
    simp [run_main, validate, stage_value, stage_type, stage_zone, h1, h2, h3, h4, h5, h6, h7]
  · intro args w v vs rt rs zid h1 h2 h3 h4 h5 h6 h7 h8 h9 h10 h11 h12 h13 h14
    match hres : resolve_ttl (normalize_name args.record_name) (some rt) rs with
    | none => exact absurd hres h14
    | some t =>
      match hd : clear_filter (normalize_name args.record_name) (some rt) rs with
      | [] =>
        have hrun : run_main args w =
            ([Event.ListRecordSets, Event.WarnRecordSetsTruncated, Event.UpsertBatch],
              Outcome.ok) := by
          simp [run_main, validate, stage_value, stage_type, stage_zone, stage_ttl_clear,
            stage_submit, h1, h2, h3, h4, h5, h6, h7, h8, h9, h10, h11, h12, h13, hres, hd]
        rw [hrun]
        exact ⟨rfl, by simp, by simp⟩
      | d :: ds =>
        have hrun : run_main args w =
            ([Event.ListRecordSets, Event.WarnRecordSetsTruncated, Event.DeleteBatch,
              Event.UpsertBatch], Outcome.ok) := by
          simp [run_main, validate, stage_value, stage_type, stage_zone, stage_ttl_clear,
            stage_submit, h1, h2, h3, h4, h5, h6, h7, h8, h9, h10, h11, h12, h13, hres, hd]
        rw [hrun]
        exact ⟨rfl, by simp, by simp⟩

/-- C9 witness: zone-listing truncation halts with the pagination panic;
record-set truncation still reaches the upsert (here with a conflicting
CNAME deleted from the partial listing). -/
theorem truncation_C9_witness :
    run_main
        { hosted_zone_id := none, hosted_zone_name := none,
          hosted_zone_type := HostedZoneType.PreferPublic, record_name := "app.example.com",
          record_type := some RrType.A, value := ["1.2.3.4"], value_from := none,
          value_from_url := none, ip_address_type := IPAddressType.Public, ttl := none,
          comment := none, wait := false, clear := false }
        { ecs := none, imds := none, url := none, list_zones := some ([], true),
          list_rrsets := none, delete_ok := true, upsert_ok := true,
          polls_until_insync := 0 } =
      ([Event.ListZones],
        Outcome.panic
          "you have a lot of hosted zones and this program does not paginate yet, please use --hosted-zone-id") ∧
      ((run_main
          { hosted_zone_id := some "Z1", hosted_zone_name := none,
            hosted_zone_type := HostedZoneType.PreferPublic, record_name := "app.example.com",
            record_type := some RrType.A, value := ["1.2.3.4"], value_from := none,
            value_from_url := none, ip_address_type := IPAddressType.Public, ttl := none,
            comment := none, wait := false, clear := true }
          { ecs := none, imds := none, url := none, list_zones := none,
            list_rrsets := some ([⟨"app.example.com.", RrType.Cname, some 60, ["x."]⟩], true),
            delete_ok := true, upsert_ok := true, polls_until_insync := 0 }).2 = Outcome.ok ∧
        Event.WarnRecordSetsTruncated ∈
          (run_main
            { hosted_zone_id := some "Z1", hosted_zone_name := none,
              hosted_zone_type := HostedZoneType.PreferPublic, record_name := "app.example.com",
              record_type := some RrType.A, value := ["1.2.3.4"], value_from := none,
              value_from_url := none, ip_address_type := IPAddressType.Public, ttl := none,
              comment := none, wait := false, clear := true }
            { ecs := none, imds := none, url := none, list_zones := none,
              list_rrsets := some ([⟨"app.example.com.", RrType.Cname, some 60, ["x."]⟩], true),
              delete_ok := true, upsert_ok := true, polls_until_insync := 0 }).1 ∧
        Event.UpsertBatch ∈
          (run_main
            { hosted_zone_id := some "Z1", hosted_zone_name := none,
              hosted_zone_type := HostedZoneType.PreferPublic, record_name := "app.example.com",
              record_type := some RrType.A, value := ["1.2.3.4"], value_from := none,
              value_from_url := none, ip_address_type := IPAddressType.Public, ttl := none,
              comment := none, wait := false, clear := true }
            { ecs := none, imds := none, url := none, list_zones := none,
              list_rrsets := some ([⟨"app.example.com.", RrType.Cname, some 60, ["x."]⟩], true),
              delete_ok := true, upsert_ok := true, polls_until_insync := 0 }).1) :=
  ⟨truncation_C9.1 _ _ "1.2.3.4" [] RrType.A [] rfl rfl rfl rfl rfl (by decide) rfl,
    truncation_C9.2 _ _ "1.2.3.4" []
      RrType.A [⟨"app.example.com.", RrType.Cname, some 60, ["x."]⟩] "Z1"
      rfl rfl rfl rfl rfl rfl (by decide) rfl rfl rfl rfl rfl rfl (by decide)⟩

/-- C2 witness: the amended characterization applied at a concrete
listing (a TXT record selected under a CNAME target). -/
theorem clear_filter_C2_amended_witness :
    (⟨"example.com.", RrType.Txt, some 300, ["v"]⟩ : ResourceRecordSet) ∈
      clear_filter "example.com." (some RrType.Cname)
        [⟨"example.com.", RrType.Txt, some 300, ["v"]⟩] :=
  (clear_filter_C2_amended "example.com." RrType.Cname
      [⟨"example.com.", RrType.Txt, some 300, ["v"]⟩]
      ⟨"example.com.", RrType.Txt, some 300, ["v"]⟩).mpr
    ⟨by decide, rfl, Or.inl ⟨rfl, by decide⟩⟩

/-- C5 witness: the amended extraction applied at concrete address
lists. -/
theorem ecs_values_C5_amended_witness :
    ecs_metadata_values (some RrType.A)
        ⟨[⟨[⟨some ["", "10.0.0.1"], some ["", "2001:db8::1"]⟩]⟩]⟩ [] = some ["10.0.0.1"] ∧
      ecs_metadata_values (some RrType.Aaaa)
        ⟨[⟨[⟨some ["", "10.0.0.1"], some ["", "2001:db8::1"]⟩]⟩]⟩ [] =
        some ["", "2001:db8::1"] :=
  ⟨(ecs_values_C5_amended ["", "10.0.0.1"] ["", "2001:db8::1"] []).1,
    (ecs_values_C5_amended ["", "10.0.0.1"] ["", "2001:db8::1"] []).2⟩
